import Mathlib

/-!
Shallow embedding of the ground-booking controller
(src/controllers/bookingController.js).

Modelling conventions:
* Timestamps are milliseconds since the Unix epoch on a UTC server, as `Nat`
  (JavaScript `Date.getTime()`); subtraction that may go negative is done in `Int`.
* Wall-clock times (`startTime`, `endTime`) stay strings and are compared
  lexicographically, exactly as the document store compares BSON strings in
  the `$lt` / `$gt` conflict query.
* A request field that may be absent is an `Option`; JavaScript truthiness is
  modelled per type (`none` and the empty string are falsy; `none` and `0` are
  falsy for numbers).
* `amount` is a rational: `parseFloat` on the numeric JSON value is the
  identity, so the coercion is modelled as the identity on the numeric value.
* The document collection is a `List Booking`; `Booking.create` appends,
  `save` after a field mutation replaces the document with the same id.
-/

namespace GroundBooking

/-- Booking `status` enumeration: pending, confirmed, completed, cancelled. -/
inductive Status where
  | pending
  | confirmed
  | completed
  | cancelled
  deriving DecidableEq, Repr

/-- A payment document; only the fields `confirmBooking` reads. -/
structure Payment where
  id : String
  status : String
  deriving DecidableEq, Repr

/-- A stored booking document, with the fields the controller reads and writes. -/
structure Booking where
  id : Nat
  customerId : String
  type : String
  groundId : String
  groundSlot : Nat
  bookingDate : Nat
  startTime : String
  endTime : String
  duration : Option Int
  bookingType : String
  specialRequirements : List String
  notes : String
  amount : Rat
  status : Status
  paymentId : Option String
  deriving DecidableEq, Repr

/-- JavaScript truthiness of an optional string: absent and `""` are falsy. -/
def truthyStr : Option String → Bool
  | none => false
  | some s => !s.isEmpty

/-- JavaScript truthiness of an optional number: absent and `0` are falsy. -/
def truthyNum : Option Rat → Bool
  | none => false
  | some q => decide (q ≠ 0)

/-- `groundSlot || 1`: the default 1 applies to an absent and to a falsy (zero) slot. -/
def slotOrDefault : Option Nat → Nat
  | none => 1
  | some s => if s = 0 then 1 else s

/-- `x || d` on an optional string: the default applies to absent and empty strings. -/
def strOrDefault (o : Option String) (d : String) : String :=
  match o with
  | none => d
  | some s => if s.isEmpty then d else s

/-- Milliseconds in a calendar day. -/
def msPerDay : Nat := 86400000

/-- `new Date(t).setHours(0, 0, 0, 0)` on a UTC server: midnight of `t`'s day. -/
def dayFloor (t : Nat) : Nat := t / msPerDay * msPerDay

/-- Split a character list at each `':'`. -/
def splitOnColon : List Char → List (List Char)
  | [] => [[]]
  | c :: rest =>
    let r := splitOnColon rest
    if c = ':' then [] :: r
    else
      match r with
      | [] => [[c]]
      | h :: t => (c :: h) :: t

/-- The numeric value of a nonempty all-digit character list. -/
def digitsToNat? (cs : List Char) : Option Nat :=
  if cs.isEmpty then none
  else if cs.all (·.isDigit) then
    some (cs.foldl (fun acc c => acc * 10 + (c.toNat - 48)) 0)
  else none

/-- Minutes denoted by a wall-clock string `"HH:MM"` (or `"HH:MM:SS"`). -/
def toMinutes (t : String) : Nat :=
  match splitOnColon t.data with
  | h :: m :: _ => (digitsToNat? h).getD 0 * 60 + (digitsToNat? m).getD 0
  | _ => 0

/-- Bytewise lexicographic order on character lists: the document store's
string comparison, applied to the wall-clock time strings. -/
def strLtb : List Char → List Char → Bool
  | _, [] => false
  | [], _ :: _ => true
  | c1 :: t1, c2 :: t2 =>
    if c1 < c2 then true
    else if c2 < c1 then false
    else strLtb t1 t2

/-- `a < b` on strings, as the store's `$lt` evaluates it. -/
def strLt (a b : String) : Bool := strLtb a.data b.data

/-- An availability query: the parameters both `createBooking` and
`checkGroundAvailability` feed into the conflict-detection query. -/
structure AvailQuery where
  groundId : String
  groundSlot : Option Nat
  bookingDate : Nat
  startTime : String
  endTime : String
  deriving DecidableEq, Repr

/-- The date window of the conflict query:
`{$gte: setHours(0,0,0,0), $lt: setHours(23,59,59,999)}` — a half-open window
from midnight up to (excluding) the last millisecond of the day. -/
def inDayWindow (bd qd : Nat) : Bool :=
  decide (dayFloor qd ≤ bd) && decide (bd < dayFloor qd + (msPerDay - 1))

/-- One document's conflict test, exactly the Mongo query of `Booking.find`:
same `groundId`, same `groundSlot` (defaulted), `bookingDate` in the day
window, `status` not `cancelled`, and
`startTime < newEnd AND endTime > newStart` on strings. -/
def isConflict (q : AvailQuery) (b : Booking) : Bool :=
  decide (b.groundId = q.groundId) &&
  decide (b.groundSlot = slotOrDefault q.groundSlot) &&
  inDayWindow b.bookingDate q.bookingDate &&
  decide (b.status ≠ Status.cancelled) &&
  strLt b.startTime q.endTime &&
  strLt q.startTime b.endTime

/-- The conflict scan shared by `createBooking` and `checkGroundAvailability`. -/
def conflictingBookings (store : List Booking) (q : AvailQuery) : List Booking :=
  store.filter (isConflict q)

/-- Result of `checkGroundAvailability`. -/
inductive AvailResult where
  | missingParams
  | available
  | unavailable (conflicts : List Booking)
  deriving DecidableEq, Repr

/-- `checkGroundAvailability`: parameter presence check, then the conflict scan;
`available` exactly when no conflicting booking is found. -/
def checkGroundAvailability (store : List Booking) (groundId : Option String)
    (groundSlot : Option Nat) (bookingDate : Option Nat)
    (startTime endTime : Option String) : AvailResult :=
  if !truthyStr groundId || !bookingDate.isSome ||
      !truthyStr startTime || !truthyStr endTime then
    .missingParams
  else
    let q : AvailQuery :=
      { groundId := groundId.getD "", groundSlot := groundSlot,
        bookingDate := bookingDate.getD 0,
        startTime := startTime.getD "", endTime := endTime.getD "" }
    if (conflictingBookings store q).isEmpty then .available
    else .unavailable (conflictingBookings store q)

/-- The request body of `createBooking`. `bookingDate` is the parsed value of
the date string (midnight of that day in ms); `duration` is the integer value
of the supplied duration. -/
structure CreateInput where
  customerId : Option String
  groundId : Option String
  groundSlot : Option Nat
  bookingDate : Option Nat
  startTime : Option String
  endTime : Option String
  duration : Option Int
  bookingType : Option String
  specialRequirements : Option (List String)
  notes : Option String
  amount : Option Rat
  deriving Repr

/-- The external directories `createBooking` consults: ground ids and user ids. -/
structure Collabs where
  grounds : List String
  users : List String
  deriving Repr

/-- Errors of `createBooking`, one per early return. -/
inductive CreateError where
  | missingFields
  | groundNotFound
  | customerNotFound
  | conflict
  | pastDateTime
  | insufficientLead
  deriving DecidableEq, Repr

/-- The response message of each `createBooking` early return. -/
def createMessage : CreateError → String
  | .missingFields =>
      "Missing required fields: customerId, groundId, bookingDate, startTime, endTime, amount"
  | .groundNotFound => "Ground not found"
  | .customerNotFound => "Customer not found"
  | .conflict =>
      "This time slot is already booked by another customer. Please choose a different time or date."
  | .pastDateTime =>
      "Cannot book ground for past dates or times. Please select a future date and time."
  | .insufficientLead =>
      "Ground must be booked at least 1 hour in advance. Please select a later time."

/-- The required-field check of `createBooking`: JavaScript falsiness of
`customerId`, `groundId`, `bookingDate`, `startTime`, `endTime`, `amount`.
`duration` is not consulted. -/
def missingRequired (inp : CreateInput) : Bool :=
  !truthyStr inp.customerId || !truthyStr inp.groundId ||
  !inp.bookingDate.isSome || !truthyStr inp.startTime ||
  !truthyStr inp.endTime || !truthyNum inp.amount

/-- The availability query `createBooking` builds from its input. -/
def queryOfInput (inp : CreateInput) : AvailQuery :=
  { groundId := inp.groundId.getD "",
    groundSlot := inp.groundSlot,
    bookingDate := inp.bookingDate.getD 0,
    startTime := inp.startTime.getD "",
    endTime := inp.endTime.getD "" }

/-- `new Date(bookingDate + "T" + startTime)` on a UTC server. -/
def startDateTimeMs (inp : CreateInput) : Nat :=
  inp.bookingDate.getD 0 + 60000 * toMinutes (inp.startTime.getD "")

/-- The document `Booking.create` persists on the success path. -/
def newBookingOf (newId : Nat) (inp : CreateInput) : Booking :=
  { id := newId,
    customerId := inp.customerId.getD "",
    type := "ground",
    groundId := inp.groundId.getD "",
    groundSlot := slotOrDefault inp.groundSlot,
    bookingDate := inp.bookingDate.getD 0,
    startTime := inp.startTime.getD "",
    endTime := inp.endTime.getD "",
    duration := inp.duration,
    bookingType := strOrDefault inp.bookingType "practice",
    specialRequirements := inp.specialRequirements.getD [],
    notes := inp.notes.getD "",
    amount := inp.amount.getD 0,
    status := Status.pending,
    paymentId := none }

/-- `createBooking`, with its checks in source order: required fields, ground
lookup, customer lookup, conflict scan, past-date check, one-hour-lead check,
then persist with `status = pending`. -/
def createBooking (env : Collabs) (store : List Booking) (now : Nat) (newId : Nat)
    (inp : CreateInput) : Except CreateError (Booking × List Booking) :=
  if missingRequired inp then .error .missingFields
  else if !env.grounds.contains (inp.groundId.getD "") then .error .groundNotFound
  else if !env.users.contains (inp.customerId.getD "") then .error .customerNotFound
  else if !(conflictingBookings store (queryOfInput inp)).isEmpty then .error .conflict
  else if startDateTimeMs inp ≤ now then .error .pastDateTime
  else if startDateTimeMs inp < now + 3600000 then .error .insufficientLead
  else .ok (newBookingOf newId inp, store ++ [newBookingOf newId inp])

/-- The store after a `createBooking` call: unchanged on any error. -/
def applyCreate (env : Collabs) (store : List Booking) (now : Nat) (newId : Nat)
    (inp : CreateInput) : List Booking :=
  match createBooking env store now newId inp with
  | .ok (_, s) => s
  | .error _ => store

/-- `save` of a mutated document: replace the document with the same id. -/
def replaceStore (store : List Booking) (bid : Nat) (b : Booking) : List Booking :=
  store.map fun x => if x.id == bid then b else x

/-- Errors of `cancelBooking`. -/
inductive CancelError where
  | notFound
  | alreadyCancelled
  | tooCloseToStart
  deriving DecidableEq, Repr

/-- The response message of each `cancelBooking` early return. -/
def cancelMessage : CancelError → String
  | .notFound => "Booking not found"
  | .alreadyCancelled => "Booking is already cancelled"
  | .tooCloseToStart => "Cannot cancel booking less than 2 hours before start time"

/-- The line appended to `notes` on cancellation. -/
def cancelLine (reason : String) : String := "Cancellation reason: " ++ reason

/-- The booking's start instant, as `cancelBooking` recomputes it:
`new Date(bookingDate.toISOString().split("T")[0] + "T" + startTime)`,
i.e. the UTC midnight of the stored date plus the wall-clock start time. -/
def bookingStartMs (b : Booking) : Nat :=
  dayFloor b.bookingDate + 60000 * toMinutes b.startTime

/-- The cancelled form of a booking: status `cancelled`, the reason line
appended to the (possibly empty) notes with a newline separator. -/
def cancelledOf (b : Booking) (reason : String) : Booking :=
  { b with
    status := Status.cancelled,
    notes := if b.notes.isEmpty then cancelLine reason
             else b.notes ++ "\n" ++ cancelLine reason }

/-- `cancelBooking`: lookup, already-cancelled guard, then the two-hour cutoff,
which applies only to `confirmed` bookings (`hoursUntilBooking < 2 &&
status === "confirmed"`, stated on milliseconds). -/
def cancelBooking (store : List Booking) (now : Nat) (bid : Nat) (reason : String) :
    Except CancelError (Booking × List Booking) :=
  match store.find? (fun x => x.id == bid) with
  | none => .error .notFound
  | some b =>
    if b.status = Status.cancelled then .error .alreadyCancelled
    else if (bookingStartMs b : Int) - (now : Int) < 7200000 ∧ b.status = Status.confirmed then
      .error .tooCloseToStart
    else .ok (cancelledOf b reason, replaceStore store bid (cancelledOf b reason))

/-- The store after a `cancelBooking` call: unchanged on any error. -/
def applyCancel (store : List Booking) (now : Nat) (bid : Nat) (reason : String) :
    List Booking :=
  match cancelBooking store now bid reason with
  | .ok (_, s) => s
  | .error _ => store

/-- Errors of `confirmBooking`. -/
inductive ConfirmError where
  | bookingNotFound
  | paymentNotFound
  | paymentNotSuccessful
  deriving DecidableEq, Repr

/-- The confirmed form of a booking, with no payment supplied. -/
def confirmedOf (b : Booking) : Booking := { b with status := Status.confirmed }

/-- The confirmed form of a booking with the payment reference attached. -/
def confirmedWith (b : Booking) (pid : String) : Booking :=
  { b with status := Status.confirmed, paymentId := some pid }

/-- `confirmBooking`: lookup, then — only when a truthy `paymentId` is supplied —
payment lookup and `status === "success"` check, then set `status = confirmed`
and save. There is no guard on the booking's own status. -/
def confirmBooking (payments : List Payment) (store : List Booking) (bid : Nat)
    (paymentId : Option String) : Except ConfirmError (Booking × List Booking) :=
  match store.find? (fun x => x.id == bid) with
  | none => .error .bookingNotFound
  | some b =>
    if truthyStr paymentId then
      match payments.find? (fun p => p.id == paymentId.getD "") with
      | none => .error .paymentNotFound
      | some p =>
        if p.status ≠ "success" then .error .paymentNotSuccessful
        else .ok (confirmedWith b (paymentId.getD ""),
                  replaceStore store bid (confirmedWith b (paymentId.getD "")))
    else .ok (confirmedOf b, replaceStore store bid (confirmedOf b))

/-- The store after a `confirmBooking` call: unchanged on any error. -/
def applyConfirm (payments : List Payment) (store : List Booking) (bid : Nat)
    (paymentId : Option String) : List Booking :=
  match confirmBooking payments store bid paymentId with
  | .ok (_, s) => s
  | .error _ => store

/-- Errors of `updateBooking`. -/
inductive UpdateError where
  | notFound
  | terminalState
  deriving DecidableEq, Repr

/-- `updateBooking`: lookup, reject when the status is `completed` or
`cancelled`, otherwise apply the patch and save. The patch is an arbitrary
field update, as `findByIdAndUpdate` applies the request body. -/
def updateBooking (store : List Booking) (bid : Nat) (patch : Booking → Booking) :
    Except UpdateError (Booking × List Booking) :=
  match store.find? (fun x => x.id == bid) with
  | none => .error .notFound
  | some b =>
    if b.status = Status.completed ∨ b.status = Status.cancelled then
      .error .terminalState
    else .ok (patch b, replaceStore store bid (patch b))

/-- The store after an `updateBooking` call: unchanged on any error. -/
def applyUpdate (store : List Booking) (bid : Nat) (patch : Booking → Booking) :
    List Booking :=
  match updateBooking store bid patch with
  | .ok (_, s) => s
  | .error _ => store

/-! ### Concrete fixtures used by witnesses and counterexamples -/

/-- A sample calendar day: 20000 days after the epoch, in ms (midnight). -/
def gday : Nat := 1728000000000

/-- Sample external directories: one ground `g1`, one user `u1`. -/
def envEx : Collabs := { grounds := ["g1"], users := ["u1"] }

/-- Sample payments: `p1` successful, `p2` failed. -/
def payEx : List Payment := [⟨"p1", "success"⟩, ⟨"p2", "failed"⟩]

/-- A sample pending booking, 09:30 to 10:30 on `gday`. -/
def bEx : Booking :=
  { id := 1, customerId := "u1", type := "ground", groundId := "g1", groundSlot := 1,
    bookingDate := gday, startTime := "09:30", endTime := "10:30",
    duration := some 60, bookingType := "practice", specialRequirements := [],
    notes := "", amount := 100, status := Status.pending, paymentId := none }

/-- An availability query overlapping `bEx` (09:00 to 10:00, same day/slot). -/
def qEx : AvailQuery :=
  { groundId := "g1", groundSlot := some 1, bookingDate := gday,
    startTime := "09:00", endTime := "10:00" }

/-- An availability query touching `bEx` at the boundary (ends 09:30 exactly). -/
def qTouch : AvailQuery :=
  { groundId := "g1", groundSlot := some 1, bookingDate := gday,
    startTime := "08:00", endTime := "09:30" }

/-- A create request ending exactly when `bEx` starts (08:00 to 09:30). -/
def inpTouch : CreateInput :=
  { customerId := some "u1", groundId := some "g1", groundSlot := some 1,
    bookingDate := some gday, startTime := some "08:00", endTime := some "09:30",
    duration := some 90, bookingType := some "practice",
    specialRequirements := some [], notes := some "", amount := some 100 }

/-- A fully valid create request, 11:00 to 12:00 on `gday`. -/
def inpEx : CreateInput :=
  { customerId := some "u1", groundId := some "g1", groundSlot := some 2,
    bookingDate := some gday, startTime := some "11:00", endTime := some "12:00",
    duration := some 60, bookingType := some "practice",
    specialRequirements := some ["lighting"], notes := some "", amount := some 100 }

/-! ### Helper lemmas -/

/-- `strLt` is irreflexive: a string is never strictly below itself. -/
theorem strLt_irrefl (s : String) : strLt s s = false := by
  unfold strLt
  induction s.data with
  | nil => rfl
  | cons c t ih => simp [strLtb, ih]

/-- For a midnight-aligned stored `bookingDate`, membership in the query's
day window is exactly equality of calendar days. -/
theorem inDayWindow_iff (bd qd : Nat) (hb : bd % msPerDay = 0) :
    inDayWindow bd qd = true ↔ bd / msPerDay = qd / msPerDay := by
  unfold inDayWindow dayFloor msPerDay at *
  simp only [Bool.and_eq_true, decide_eq_true_eq]
  omega

/-- A failed `createBooking` leaves the store unchanged. -/
theorem applyCreate_error (env : Collabs) (store : List Booking) (now newId : Nat)
    (inp : CreateInput) (e : CreateError)
    (h : createBooking env store now newId inp = .error e) :
    applyCreate env store now newId inp = store := by
  unfold applyCreate
  rw [h]

/-- A failed `cancelBooking` leaves the store unchanged. -/
theorem applyCancel_error (store : List Booking) (now bid : Nat) (reason : String)
    (e : CancelError) (h : cancelBooking store now bid reason = .error e) :
    applyCancel store now bid reason = store := by
  unfold applyCancel
  rw [h]

/-- A failed `confirmBooking` leaves the store unchanged. -/
theorem applyConfirm_error (payments : List Payment) (store : List Booking)
    (bid : Nat) (paymentId : Option String) (e : ConfirmError)
    (h : confirmBooking payments store bid paymentId = .error e) :
    applyConfirm payments store bid paymentId = store := by
  unfold applyConfirm
  rw [h]

/-- A failed `updateBooking` leaves the store unchanged. -/
theorem applyUpdate_error (store : List Booking) (bid : Nat)
    (patch : Booking → Booking) (e : UpdateError)
    (h : updateBooking store bid patch = .error e) :
    applyUpdate store bid patch = store := by
  unfold applyUpdate
  rw [h]

/-! ### Claims -/

/-- C1: for every availability query and every create request, a conflict is
reported exactly for the stored bookings with the same `groundId`, the same
`groundSlot` (defaulted to 1), the same calendar day (for the midnight-aligned
dates the system stores), status not `cancelled`, and
`existing.startTime < newEnd AND existing.endTime > newStart`; a booking whose
`endTime` equals an existing `startTime` is not a conflict, and such a create
request is accepted. -/
theorem c1_conflict_characterization :
    (∀ (store : List Booking) (q : AvailQuery) (b : Booking),
        b.bookingDate % msPerDay = 0 →
        (b ∈ conflictingBookings store q ↔
          b ∈ store ∧ b.groundId = q.groundId ∧
          b.groundSlot = slotOrDefault q.groundSlot ∧
          b.bookingDate / msPerDay = q.bookingDate / msPerDay ∧
          b.status ≠ Status.cancelled ∧
          strLt b.startTime q.endTime = true ∧
          strLt q.startTime b.endTime = true)) ∧
    (∀ (store : List Booking) (q : AvailQuery) (b : Booking),
        q.endTime = b.startTime → b ∉ conflictingBookings store q) ∧
    (∀ (store : List Booking) (gid : Option String) (slot : Option Nat)
        (bd : Option Nat) (st et : Option String),
        truthyStr gid = true → bd.isSome = true →
        truthyStr st = true → truthyStr et = true →
        (checkGroundAvailability store gid slot bd st et = .available ↔
          conflictingBookings store
            { groundId := gid.getD "", groundSlot := slot, bookingDate := bd.getD 0,
              startTime := st.getD "", endTime := et.getD "" } = [])) ∧
    (∀ (env : Collabs) (store : List Booking) (now newId : Nat) (inp : CreateInput),
        truthyStr inp.customerId = true → truthyStr inp.groundId = true →
        inp.bookingDate.isSome = true → truthyStr inp.startTime = true →
        truthyStr inp.endTime = true → truthyNum inp.amount = true →
        env.grounds.contains (inp.groundId.getD "") = true →
        env.users.contains (inp.customerId.getD "") = true →
        (∀ b ∈ store, b.startTime = inp.endTime.getD "") →
        now < startDateTimeMs inp →
        now + 3600000 ≤ startDateTimeMs inp →
        createBooking env store now newId inp =
          .ok (newBookingOf newId inp, store ++ [newBookingOf newId inp])) := by
  refine ⟨?_, ?_, ?_, ?_⟩
  · intro store q b hb
    unfold conflictingBookings
    rw [List.mem_filter]
    unfold isConflict
    simp only [Bool.and_eq_true, decide_eq_true_eq]
    rw [inDayWindow_iff _ _ hb]
    tauto
  · intro store q b hq hmem
    unfold conflictingBookings at hmem
    rw [List.mem_filter] at hmem
    have := hmem.2
    rw [isConflict] at this
    rw [hq, strLt_irrefl] at this
    simp at this
  · intro store gid slot bd st et h1 h2 h3 h4
    unfold checkGroundAvailability
    rw [if_neg (by simp [h1, h2, h3, h4])]
    dsimp only
    by_cases he : (conflictingBookings store
        { groundId := gid.getD "", groundSlot := slot, bookingDate := bd.getD 0,
          startTime := st.getD "", endTime := et.getD "" }).isEmpty
    · rw [if_pos he]
      simp only [true_iff]
      exact List.isEmpty_iff.mp he
    · rw [if_neg he]
      constructor
      · intro hcontr
        exact absurd hcontr (by simp)
      · intro hnil
        rw [hnil] at he
        exact absurd rfl he
  · intro env store now newId inp h1 h2 h3 h4 h5 h6 hg hu hstore hfut hlead
    have hmr : missingRequired inp = false := by
      simp [missingRequired, h1, h2, h3, h4, h5, h6]
    have hconf : conflictingBookings store (queryOfInput inp) = [] := by
      unfold conflictingBookings
      rw [List.filter_eq_nil_iff]
      intro b hbmem
      have hbs := hstore b hbmem
      simp [isConflict, queryOfInput, ← hbs, strLt_irrefl]
    unfold createBooking
    rw [hmr, hg, hu, hconf]
    simp only [Bool.not_true, Bool.false_eq_true, if_false, List.isEmpty_nil,
      Bool.not_false, Bool.true_eq_false]
    rw [if_neg (by omega), if_neg (by omega)]

/-- Witness for C1: the 09:00 to 10:00 query conflicts with the stored
09:30 to 10:30 booking; the query ending exactly 09:30 does not, and the
matching create request succeeds. -/
theorem c1_witness :
    bEx ∈ conflictingBookings [bEx] qEx ∧
    bEx ∉ conflictingBookings [bEx] qTouch ∧
    checkGroundAvailability [bEx] (some "g1") (some 1) (some gday)
      (some "08:00") (some "09:30") = .available ∧
    createBooking envEx [bEx] gday 2 inpTouch =
      .ok (newBookingOf 2 inpTouch, [bEx] ++ [newBookingOf 2 inpTouch]) := by
  refine ⟨?_, ?_, ?_, ?_⟩
  · exact (c1_conflict_characterization.1 [bEx] qEx bEx (by decide)).mpr
      ⟨List.mem_singleton.mpr rfl, rfl, rfl, by decide, by decide, by decide, by decide⟩
  · exact c1_conflict_characterization.2.1 [bEx] qTouch bEx rfl
  · exact (c1_conflict_characterization.2.2.1 [bEx] (some "g1") (some 1) (some gday)
      (some "08:00") (some "09:30") rfl rfl rfl rfl).mpr (by decide)
  · exact c1_conflict_characterization.2.2.2 envEx [bEx] gday 2 inpTouch
      (by decide) (by decide) (by decide) (by decide) (by decide) (by decide)
      (by decide) (by decide)
      (by intro b hb
          rw [List.mem_singleton] at hb
          subst hb
          rfl)
      (by decide) (by decide)

/-- A cancelled booking on `gday` (id 3). -/
def bC2 : Booking := { bEx with id := 3, status := Status.cancelled }

/-- A completed booking on `gday` (id 4). -/
def bComp : Booking := { bEx with id := 4, status := Status.completed }

/-- C2 counterexample: `confirmBooking` has no status guard, so confirming an
already cancelled booking does not return an error — it succeeds and moves the
stored status from `cancelled` to `confirmed`. -/
theorem c2_counterexample :
    bC2.status = Status.cancelled ∧
    confirmBooking [] [bC2] 3 none = .ok (confirmedOf bC2, [confirmedOf bC2]) ∧
    (confirmedOf bC2).status = Status.confirmed :=
  ⟨rfl, rfl, rfl⟩

/-- C2 (amended): `updateBooking` rejects cancelled and completed bookings and
leaves the store unchanged, and `cancelBooking` rejects an already cancelled
booking and leaves the store unchanged; but `confirmBooking` (without a
payment) succeeds on a booking of any status and sets it `confirmed`, and
`cancelBooking` on a completed booking succeeds and sets it `cancelled`. -/
theorem c2_terminal_status_guards :
    (∀ (store : List Booking) (bid : Nat) (patch : Booking → Booking) (b : Booking),
        store.find? (fun x => x.id == bid) = some b →
        (b.status = Status.completed ∨ b.status = Status.cancelled) →
        updateBooking store bid patch = .error .terminalState ∧
        applyUpdate store bid patch = store) ∧
    (∀ (store : List Booking) (now bid : Nat) (reason : String) (b : Booking),
        store.find? (fun x => x.id == bid) = some b →
        b.status = Status.cancelled →
        cancelBooking store now bid reason = .error .alreadyCancelled ∧
        applyCancel store now bid reason = store) ∧
    (∀ (payments : List Payment) (store : List Booking) (bid : Nat) (b : Booking),
        store.find? (fun x => x.id == bid) = some b →
        confirmBooking payments store bid none =
          .ok (confirmedOf b, replaceStore store bid (confirmedOf b))) ∧
    (∀ (store : List Booking) (now bid : Nat) (reason : String) (b : Booking),
        store.find? (fun x => x.id == bid) = some b →
        b.status = Status.completed →
        cancelBooking store now bid reason =
          .ok (cancelledOf b reason, replaceStore store bid (cancelledOf b reason))) := by
  refine ⟨?_, ?_, ?_, ?_⟩
  · intro store bid patch b hfind hst
    have hupd : updateBooking store bid patch = .error .terminalState := by
      unfold updateBooking
      rw [hfind]
      dsimp only
      rw [if_pos hst]
    exact ⟨hupd, applyUpdate_error _ _ _ _ hupd⟩
  · intro store now bid reason b hfind hst
    have hcan : cancelBooking store now bid reason = .error .alreadyCancelled := by
      unfold cancelBooking
      rw [hfind]
      dsimp only
      rw [if_pos hst]
    exact ⟨hcan, applyCancel_error _ _ _ _ _ hcan⟩
  · intro payments store bid b hfind
    unfold confirmBooking
    rw [hfind]
    dsimp only
    rw [if_neg (by simp [truthyStr])]
  · intro store now bid reason b hfind hst
    unfold cancelBooking
    rw [hfind]
    dsimp only
    rw [if_neg (by simp [hst]), if_neg (by simp [hst])]

/-- Witness for the amended C2, at concrete completed and cancelled bookings. -/
theorem c2_witness :
    updateBooking [bComp] 4 (fun x => x) = .error .terminalState ∧
    cancelBooking [bC2] gday 3 "r" = .error .alreadyCancelled ∧
    confirmBooking [] [bComp] 4 none =
      .ok (confirmedOf bComp, replaceStore [bComp] 4 (confirmedOf bComp)) ∧
    cancelBooking [bComp] gday 4 "r" =
      .ok (cancelledOf bComp "r", replaceStore [bComp] 4 (cancelledOf bComp "r")) :=
  ⟨(c2_terminal_status_guards.1 [bComp] 4 (fun x => x) bComp rfl (Or.inl rfl)).1,
   (c2_terminal_status_guards.2.1 [bC2] gday 3 "r" bC2 rfl rfl).1,
   c2_terminal_status_guards.2.2.1 [] [bComp] 4 bComp rfl,
   c2_terminal_status_guards.2.2.2 [bComp] gday 4 "r" bComp rfl rfl⟩

/-- A confirmed booking on `gday` (id 5). -/
def bConf : Booking := { bEx with id := 5, status := Status.confirmed }

/-- C3: for an existing booking, `cancelBooking` rejects with the
too-close-to-start error exactly when the status is `confirmed` and the start
is less than two hours (7200000 ms) away; a `pending` booking is cancellable
at any lead time. -/
theorem c3_cancel_cutoff :
    ∀ (store : List Booking) (now bid : Nat) (reason : String) (b : Booking),
      store.find? (fun x => x.id == bid) = some b →
      ((cancelBooking store now bid reason = .error .tooCloseToStart ↔
          b.status = Status.confirmed ∧
          (bookingStartMs b : Int) - (now : Int) < 7200000) ∧
       (b.status = Status.pending →
          cancelBooking store now bid reason =
            .ok (cancelledOf b reason, replaceStore store bid (cancelledOf b reason)))) := by
  intro store now bid reason b hfind
  constructor
  · unfold cancelBooking
    rw [hfind]
    dsimp only
    by_cases hc : b.status = Status.cancelled
    · rw [if_pos hc]
      constructor
      · intro h
        exact absurd h (by simp)
      · intro h
        rw [hc] at h
        exact absurd h.1 (by simp)
    · rw [if_neg hc]
      by_cases h2 : (bookingStartMs b : Int) - (now : Int) < 7200000 ∧
          b.status = Status.confirmed
      · rw [if_pos h2]
        simp [h2.1, h2.2]
      · rw [if_neg h2]
        constructor
        · intro h
          exact absurd h (by simp)
        · intro h
          exact absurd ⟨h.2, h.1⟩ h2
  · intro hp
    unfold cancelBooking
    rw [hfind]
    dsimp only
    rw [if_neg (by simp [hp]), if_neg (by simp [hp])]

/-- Witness for C3: cancelling the confirmed booking one hour before start is
rejected as too close; cancelling the pending booking twenty minutes before
start succeeds. -/
theorem c3_witness :
    cancelBooking [bConf] (gday + 30600000) 5 "r" = .error .tooCloseToStart ∧
    cancelBooking [bEx] (gday + 33000000) 1 "r" =
      .ok (cancelledOf bEx "r", replaceStore [bEx] 1 (cancelledOf bEx "r")) :=
  ⟨(c3_cancel_cutoff [bConf] (gday + 30600000) 5 "r" bConf rfl).1.mpr
      ⟨rfl, by decide⟩,
   (c3_cancel_cutoff [bEx] (gday + 33000000) 1 "r" bEx rfl).2 rfl⟩

/-- C4: a confirm request that supplies a (truthy) `paymentId`: a missing
payment yields not-found and leaves the store unchanged; an existing payment
whose status is not `"success"` yields the invalid-state error and leaves the
store unchanged; a successful payment attaches the reference and sets the
status `confirmed`. -/
theorem c4_confirm_payment :
    ∀ (payments : List Payment) (store : List Booking) (bid : Nat) (pid : String)
      (b : Booking),
      store.find? (fun x => x.id == bid) = some b →
      truthyStr (some pid) = true →
      ((payments.find? (fun p => p.id == pid) = none →
          confirmBooking payments store bid (some pid) = .error .paymentNotFound ∧
          applyConfirm payments store bid (some pid) = store) ∧
       (∀ p, payments.find? (fun p2 => p2.id == pid) = some p →
          p.status ≠ "success" →
          confirmBooking payments store bid (some pid) = .error .paymentNotSuccessful ∧
          applyConfirm payments store bid (some pid) = store) ∧
       (∀ p, payments.find? (fun p2 => p2.id == pid) = some p →
          p.status = "success" →
          confirmBooking payments store bid (some pid) =
            .ok (confirmedWith b pid, replaceStore store bid (confirmedWith b pid)))) := by
  intro payments store bid pid b hfind htr
  refine ⟨?_, ?_, ?_⟩
  · intro hp
    have hc : confirmBooking payments store bid (some pid) = .error .paymentNotFound := by
      unfold confirmBooking
      rw [hfind]
      dsimp only
      rw [if_pos htr]
      dsimp only [Option.getD]
      rw [hp]
    exact ⟨hc, applyConfirm_error _ _ _ _ _ hc⟩
  · intro p hp hs
    have hc : confirmBooking payments store bid (some pid) =
        .error .paymentNotSuccessful := by
      unfold confirmBooking
      rw [hfind]
      dsimp only
      rw [if_pos htr]
      dsimp only [Option.getD]
      rw [hp]
      dsimp only
      rw [if_pos hs]
    exact ⟨hc, applyConfirm_error _ _ _ _ _ hc⟩
  · intro p hp hs
    unfold confirmBooking
    rw [hfind]
    dsimp only
    rw [if_pos htr]
    dsimp only [Option.getD]
    rw [hp]
    dsimp only
    rw [if_neg (by simp [hs])]

/-- Witness for C4: against the sample payments, confirming with an unknown
payment id is not-found, with the failed payment is rejected, and with the
successful payment attaches it and confirms. -/
theorem c4_witness :
    confirmBooking payEx [bEx] 1 (some "p9") = .error .paymentNotFound ∧
    confirmBooking payEx [bEx] 1 (some "p2") = .error .paymentNotSuccessful ∧
    confirmBooking payEx [bEx] 1 (some "p1") =
      .ok (confirmedWith bEx "p1", replaceStore [bEx] 1 (confirmedWith bEx "p1")) :=
  ⟨((c4_confirm_payment payEx [bEx] 1 "p9" bEx rfl rfl).1 rfl).1,
   ((c4_confirm_payment payEx [bEx] 1 "p2" bEx rfl rfl).2.1 ⟨"p2", "failed"⟩ rfl
      (by decide)).1,
   (c4_confirm_payment payEx [bEx] 1 "p1" bEx rfl rfl).2.2 ⟨"p1", "success"⟩ rfl rfl⟩

/-- C5: a create request whose start is not strictly in the future is
rejected (no booking persisted), one whose start is less than one hour away is
rejected (no booking persisted); when the earlier checks pass these are two
distinct checks with two distinct error messages. -/
theorem c5_create_time_checks :
    (∀ (env : Collabs) (store : List Booking) (now newId : Nat) (inp : CreateInput),
        startDateTimeMs inp ≤ now →
        (∃ e, createBooking env store now newId inp = .error e) ∧
        applyCreate env store now newId inp = store) ∧
    (∀ (env : Collabs) (store : List Booking) (now newId : Nat) (inp : CreateInput),
        startDateTimeMs inp < now + 3600000 →
        (∃ e, createBooking env store now newId inp = .error e) ∧
        applyCreate env store now newId inp = store) ∧
    (∀ (env : Collabs) (store : List Booking) (now newId : Nat) (inp : CreateInput),
        missingRequired inp = false →
        env.grounds.contains (inp.groundId.getD "") = true →
        env.users.contains (inp.customerId.getD "") = true →
        conflictingBookings store (queryOfInput inp) = [] →
        (startDateTimeMs inp ≤ now →
           createBooking env store now newId inp = .error .pastDateTime) ∧
        (now < startDateTimeMs inp → startDateTimeMs inp < now + 3600000 →
           createBooking env store now newId inp = .error .insufficientLead)) ∧
    createMessage .pastDateTime ≠ createMessage .insufficientLead := by
  refine ⟨?_, ?_, ?_, by decide⟩
  · intro env store now newId inp h
    have hkey : ∃ e, createBooking env store now newId inp = .error e := by
      unfold createBooking
      split_ifs
      all_goals exact ⟨_, rfl⟩
    obtain ⟨e, he⟩ := hkey
    exact ⟨⟨e, he⟩, applyCreate_error _ _ _ _ _ _ he⟩
  · intro env store now newId inp h
    have hkey : ∃ e, createBooking env store now newId inp = .error e := by
      unfold createBooking
      split_ifs
      all_goals exact ⟨_, rfl⟩
    obtain ⟨e, he⟩ := hkey
    exact ⟨⟨e, he⟩, applyCreate_error _ _ _ _ _ _ he⟩
  · intro env store now newId inp hmr hg hu hc
    constructor
    · intro hle
      unfold createBooking
      rw [hmr, hg, hu, hc]
      simp only [Bool.not_true, Bool.false_eq_true, if_false, List.isEmpty_nil,
        Bool.not_false]
      rw [if_pos hle]
    · intro hfut hlead
      unfold createBooking
      rw [hmr, hg, hu, hc]
      simp only [Bool.not_true, Bool.false_eq_true, if_false, List.isEmpty_nil,
        Bool.not_false]
      rw [if_neg (by omega), if_pos hlead]

/-- Witness for C5: the valid request evaluated at a "now" equal to its start
is rejected, and evaluated ten minutes before its start yields exactly the
insufficient-lead error. -/
theorem c5_witness :
    (∃ e, createBooking envEx [] (gday + 39600000) 6 inpEx = .error e) ∧
    createBooking envEx [] (gday + 39000000) 6 inpEx = .error .insufficientLead :=
  ⟨(c5_create_time_checks.1 envEx [] (gday + 39600000) 6 inpEx (by decide)).1,
   (c5_create_time_checks.2.2.1 envEx [] (gday + 39000000) 6 inpEx (by decide)
      (by decide) (by decide) rfl).2 (by decide) (by decide)⟩

/-- The valid request with a supplied `groundSlot` of 0. -/
def inpSlot0 : CreateInput := { inpEx with groundSlot := some 0 }

/-- C6 counterexample: a create request supplying `groundSlot = 0` succeeds,
but the persisted booking's `groundSlot` is 1, not the supplied value —
`groundSlot || 1` defaults on any falsy value, not only on absence. -/
theorem c6_counterexample :
    inpSlot0.groundSlot = some 0 ∧
    createBooking envEx [] gday 7 inpSlot0 =
      .ok (newBookingOf 7 inpSlot0, [] ++ [newBookingOf 7 inpSlot0]) ∧
    (newBookingOf 7 inpSlot0).groundSlot = 1 :=
  ⟨rfl, rfl, rfl⟩

/-- C6 (amended): every successfully persisted booking has status `pending`,
`groundSlot` equal to the supplied value when nonzero and 1 when the slot is
absent or 0, `specialRequirements` equal to the supplied set or empty when
absent, `amount` the numeric value of the supplied amount, and `duration` the
integer value of the supplied duration. -/
theorem c6_persisted_fields :
    ∀ (env : Collabs) (store : List Booking) (now newId : Nat) (inp : CreateInput)
      (b : Booking) (s2 : List Booking),
      createBooking env store now newId inp = .ok (b, s2) →
      b.status = Status.pending ∧
      b.groundSlot = slotOrDefault inp.groundSlot ∧
      b.specialRequirements = inp.specialRequirements.getD [] ∧
      b.amount = inp.amount.getD 0 ∧
      b.duration = inp.duration := by
  intro env store now newId inp b s2 h
  unfold createBooking at h
  split_ifs at h
  rw [Except.ok.injEq, Prod.mk.injEq] at h
  obtain ⟨hb, -⟩ := h
  subst hb
  exact ⟨rfl, rfl, rfl, rfl, rfl⟩

/-- Witness for the amended C6, at the concrete valid request. -/
theorem c6_witness :
    (newBookingOf 8 inpEx).status = Status.pending ∧
    (newBookingOf 8 inpEx).groundSlot = slotOrDefault inpEx.groundSlot ∧
    (newBookingOf 8 inpEx).specialRequirements = inpEx.specialRequirements.getD [] ∧
    (newBookingOf 8 inpEx).amount = inpEx.amount.getD 0 ∧
    (newBookingOf 8 inpEx).duration = inpEx.duration :=
  c6_persisted_fields envEx [] gday 8 inpEx (newBookingOf 8 inpEx)
    ([] ++ [newBookingOf 8 inpEx]) rfl

/-- C7: confirming (without a payment) a booking that is already `confirmed`
is not rejected — it succeeds and the stored booking is unchanged, its status
still `confirmed`. -/
theorem c7_confirm_idempotent :
    ∀ (payments : List Payment) (store : List Booking) (bid : Nat) (b : Booking),
      store.find? (fun x => x.id == bid) = some b →
      b.status = Status.confirmed →
      confirmBooking payments store bid none = .ok (b, replaceStore store bid b) := by
  intro payments store bid b hfind hst
  have heq : confirmedOf b = b := by
    unfold confirmedOf
    cases b
    simp_all
  unfold confirmBooking
  rw [hfind]
  dsimp only
  rw [if_neg (by simp [truthyStr]), heq]

/-- Witness for C7: re-confirming the confirmed sample booking succeeds and
leaves it as it was. -/
theorem c7_witness :
    confirmBooking payEx [bConf] 5 none = .ok (bConf, replaceStore [bConf] 5 bConf) :=
  c7_confirm_idempotent payEx [bConf] 5 bConf rfl rfl

/-- C8: a create request missing any of `customerId`, `groundId`,
`bookingDate`, `startTime`, `endTime`, `amount` fails with the
missing-required-fields error and persists nothing; `duration` is not
consulted by the required-field check. -/
theorem c8_required_fields :
    (∀ (env : Collabs) (store : List Booking) (now newId : Nat) (inp : CreateInput),
        (inp.customerId = none ∨ inp.groundId = none ∨ inp.bookingDate = none ∨
         inp.startTime = none ∨ inp.endTime = none ∨ inp.amount = none) →
        createBooking env store now newId inp = .error .missingFields ∧
        applyCreate env store now newId inp = store) ∧
    (∀ (inp : CreateInput) (d : Option Int),
        missingRequired { inp with duration := d } = missingRequired inp) := by
  constructor
  · intro env store now newId inp h
    have hmr : missingRequired inp = true := by
      rcases h with h | h | h | h | h | h <;>
        simp [missingRequired, h, truthyStr, truthyNum]
    have hc : createBooking env store now newId inp = .error .missingFields := by
      unfold createBooking
      rw [hmr]
      rfl
    exact ⟨hc, applyCreate_error _ _ _ _ _ _ hc⟩
  · intro inp d
    rfl

/-- The valid request with `amount` removed. -/
def inpNoAmount : CreateInput := { inpEx with amount := none }

/-- Witness for C8: the valid request with `amount` removed is rejected with
the missing-required-fields error and nothing is persisted. -/
theorem c8_witness :
    createBooking envEx [] gday 9 inpNoAmount = .error .missingFields ∧
    applyCreate envEx [] gday 9 inpNoAmount = [] :=
  c8_required_fields.1 envEx [] gday 9 inpNoAmount
    (Or.inr (Or.inr (Or.inr (Or.inr (Or.inr rfl)))))

/-- C9: when `cancelBooking` succeeds, the stored booking's status becomes
`cancelled` and the reason is appended to the notes with a separator; the
prior notes stay a prefix of the new notes, and empty notes become exactly the
cancellation-reason line. -/
theorem c9_cancel_notes :
    ∀ (store : List Booking) (now bid : Nat) (reason : String) (b b2 : Booking)
      (s2 : List Booking),
      store.find? (fun x => x.id == bid) = some b →
      cancelBooking store now bid reason = .ok (b2, s2) →
      b2.status = Status.cancelled ∧
      b2.notes = (if b.notes.isEmpty then cancelLine reason
                  else b.notes ++ "\n" ++ cancelLine reason) ∧
      (∃ t, b2.notes = b.notes ++ t) ∧
      (b.notes = "" → b2.notes = cancelLine reason) := by
  intro store now bid reason b b2 s2 hfind h
  unfold cancelBooking at h
  rw [hfind] at h
  dsimp only at h
  split_ifs at h
  rw [Except.ok.injEq, Prod.mk.injEq] at h
  obtain ⟨hb2, -⟩ := h
  subst hb2
  refine ⟨rfl, rfl, ?_, ?_⟩
  · unfold cancelledOf
    by_cases hn : b.notes.isEmpty
    · rw [if_pos hn]
      refine ⟨cancelLine reason, ?_⟩
      rw [(String.isEmpty_iff b.notes).mp hn, String.empty_append]
    · rw [if_neg hn]
      exact ⟨"\n" ++ cancelLine reason, String.append_assoc _ _ _⟩
  · intro hempty
    unfold cancelledOf
    rw [if_pos (by rw [hempty]; rfl)]

/-- The pending sample booking with nonempty prior notes (id 10). -/
def bNotes : Booking := { bEx with id := 10, notes := "bring nets" }

/-- Witness for C9: cancelling the booking with prior notes keeps those notes
as a prefix and appends the reason line. -/
theorem c9_witness :
    (cancelledOf bNotes "rain").status = Status.cancelled ∧
    (cancelledOf bNotes "rain").notes =
      (if bNotes.notes.isEmpty then cancelLine "rain"
       else bNotes.notes ++ "\n" ++ cancelLine "rain") ∧
    (∃ t, (cancelledOf bNotes "rain").notes = bNotes.notes ++ t) ∧
    (bNotes.notes = "" → (cancelledOf bNotes "rain").notes = cancelLine "rain") :=
  c9_cancel_notes [bNotes] gday 10 "rain" bNotes (cancelledOf bNotes "rain")
    (replaceStore [bNotes] 10 (cancelledOf bNotes "rain")) rfl rfl

/-- C10: the required-field check tests JavaScript falsiness, so a present but
zero `amount` is rejected with the missing-required-fields error and nothing
is persisted; consequently no persisted booking ever has amount 0. -/
theorem c10_zero_amount :
    (∀ (env : Collabs) (store : List Booking) (now newId : Nat) (inp : CreateInput),
        inp.amount = some 0 →
        createBooking env store now newId inp = .error .missingFields ∧
        applyCreate env store now newId inp = store) ∧
    (∀ (env : Collabs) (store : List Booking) (now newId : Nat) (inp : CreateInput)
       (b : Booking) (s2 : List Booking),
        createBooking env store now newId inp = .ok (b, s2) → b.amount ≠ 0) := by
  constructor
  · intro env store now newId inp h
    have hmr : missingRequired inp = true := by
      simp [missingRequired, truthyNum, h]
    have hc : createBooking env store now newId inp = .error .missingFields := by
      unfold createBooking
      rw [hmr]
      rfl
    exact ⟨hc, applyCreate_error _ _ _ _ _ _ hc⟩
  · intro env store now newId inp b s2 h
    unfold createBooking at h
    split_ifs at h with h1
    rw [Except.ok.injEq, Prod.mk.injEq] at h
    obtain ⟨hb, -⟩ := h
    subst hb
    have hamt : truthyNum inp.amount = true := by
      simp only [missingRequired, Bool.or_eq_true, Bool.not_eq_true'] at h1
      push_neg at h1
      simp_all
    match hm : inp.amount with
    | none => rw [hm] at hamt; simp [truthyNum] at hamt
    | some q =>
      rw [hm] at hamt
      simp only [truthyNum, decide_eq_true_eq] at hamt
      show (newBookingOf newId inp).amount ≠ 0
      unfold newBookingOf
      rw [hm]
      exact hamt

/-- The valid request with `amount` present but zero. -/
def inpZero : CreateInput := { inpEx with amount := some 0 }

/-- Witness for C10: a zero-amount request is rejected as missing fields. -/
theorem c10_witness :
    createBooking envEx [] gday 11 inpZero = .error .missingFields ∧
    applyCreate envEx [] gday 11 inpZero = [] :=
  c10_zero_amount.1 envEx [] gday 11 inpZero rfl

end GroundBooking
